import Mathlib

/-!
# Verification of the log-analysis and seed-generation scripts

A shallow embedding of the two Python scripts of this repository:

* `analyze_logs.py` — `parse_log_line` (the line parser), `analyze_logs`
  (the classifier building the `Analysis` aggregate) and the
  connection-label heuristic of `print_analysis`.
* `generate_seed.py` — the flat generation loop producing 28 INSERT rows,
  with the random sources (uuid/sha256 hex strings, `random.randint`,
  `random.choice`, `datetime.now`) abstracted as oracle streams.

Python-specific behaviours are modelled explicitly: truthiness (`x or d`),
`str.strip`/`str.lower`, substring `in`, the regex
`^(\S+)\s+\|\s+(.+)$` with its backtracking semantics, `json.loads`
(strict mode, duplicate keys resolved last-wins), and the two statements
of the classifier loop that can raise (`.lower()` on a non-string level:
AttributeError; `message + ' ' + error` on non-string parts: TypeError) —
the classifier is therefore embedded in `Except String`.
-/

/-! ## Python string primitives -/

/-- The whitespace class of Python's `\s` / `str.strip`, ASCII fragment
(space, tab, newline, vertical tab, form feed, carriage return). -/
def pyIsSpace (c : Char) : Bool :=
  c == ' ' || c == '\t' || c == '\n' || c == '\x0b' || c == '\x0c' || c == '\r'

/-- Python `str.strip()`: remove whitespace from both ends. -/
def pyStrip (s : String) : String :=
  String.mk (((s.toList.dropWhile pyIsSpace).reverse.dropWhile pyIsSpace).reverse)

/-- Does `needle` occur as a contiguous sublist of `hay`? -/
def hasSub (needle : List Char) : List Char → Bool
  | [] => needle.isEmpty
  | c :: rest => needle.isPrefixOf (c :: rest) || hasSub needle rest

/-- Python's substring test `needle in hay`. -/
def pyIn (needle hay : String) : Bool := hasSub needle.toList hay.toList

/-- Python `str.lower()` (ASCII fragment). -/
def pyLowerStr (s : String) : String := String.mk (s.toList.map Char.toLower)

/-! ## The JSON value model

`json.loads` output is modelled by `Json`.  Numbers keep their source
lexeme (the scripts never do arithmetic on them; Python-level falsiness
of a number is decided from the lexeme by `numIsZero`). -/

inductive Json where
  | null : Json
  | bool : Bool → Json
  | num : String → Json
  | str : String → Json
  | arr : List Json → Json
  | obj : List (String × Json) → Json

/-- Is the numeric value of a JSON number lexeme zero?  The lexeme is zero
exactly when its mantissa (sign stripped, exponent dropped) consists of
`0` and `.` only. -/
def numIsZero (lex : String) : Bool :=
  let cs := lex.toList
  let cs := match cs with
    | c :: r => if c = '-' then r else c :: r
    | [] => []
  let mant := cs.takeWhile (fun c => !(c == 'e') && !(c == 'E'))
  !mant.isEmpty && mant.all (fun c => c == '0' || c == '.')

/-- Python falsiness of a JSON-derived value (`None`, `False`, `0`, `''`,
`[]`, `{}` are falsy). -/
def pyFalsy : Json → Bool
  | .null => true
  | .bool b => !b
  | .num lex => numIsZero lex
  | .str s => s == ""
  | .arr xs => xs.isEmpty
  | .obj kvs => kvs.isEmpty

/-- Python `x or d` over an optional JSON value (`None` and falsy values
fall through to the default). -/
def pyOr (v : Option Json) (d : Json) : Json :=
  match v with
  | none => d
  | some x => if pyFalsy x then d else x

/-- Python `.lower()` applied to a JSON-derived value: succeeds only on
strings, otherwise raises `AttributeError`. -/
def pyLowerVal : Json → Except String String
  | .str s => .ok (pyLowerStr s)
  | _ => .error "AttributeError"

/-- Python `message + ' ' + error` over JSON-derived values: both parts
must be strings, otherwise `TypeError`. -/
def concatStr : Json → Json → Except String (String × String)
  | .str ms, .str es => .ok (ms, es)
  | _, _ => .error "TypeError"

/-- `dict.get` over the member list of a parsed JSON object: with
duplicate keys the last binding wins, as in `dict` construction. -/
def jget (kvs : List (String × Json)) (k : String) : Option Json :=
  kvs.foldl (fun acc p => if p.1 = k then some p.2 else acc) none

/-! ## `json.loads` (strict mode) -/

/-- JSON whitespace (the only characters `json.loads` skips between
tokens). -/
def isJsonWs (c : Char) : Bool := c == ' ' || c == '\t' || c == '\n' || c == '\r'

/-- Drop leading JSON whitespace. -/
def skipWs : List Char → List Char
  | [] => []
  | c :: rest => if isJsonWs c then skipWs rest else c :: rest

/-- Value of a hexadecimal digit. -/
def hexVal (c : Char) : Option Nat :=
  if '0' ≤ c ∧ c ≤ '9' then some (c.toNat - '0'.toNat)
  else if 'a' ≤ c ∧ c ≤ 'f' then some (c.toNat - 'a'.toNat + 10)
  else if 'A' ≤ c ∧ c ≤ 'F' then some (c.toNat - 'A'.toNat + 10)
  else none

/-- Single-character JSON string escapes. -/
def escChar (e : Char) : Option Char :=
  if e == '"' then some '"'
  else if e == '\\' then some '\\'
  else if e == '/' then some '/'
  else if e == 'b' then some '\x08'
  else if e == 'f' then some '\x0c'
  else if e == 'n' then some '\n'
  else if e == 'r' then some '\r'
  else if e == 't' then some '\t'
  else none

/-- Body of a JSON string after the opening quote, strict mode: raw
control characters are rejected; `\uXXXX` decodes to the code point
(surrogate pairs are not recombined).  Returns the decoded characters and
the input after the closing quote. -/
def parseStrBody : Nat → List Char → Option (List Char × List Char)
  | 0, _ => none
  | _ + 1, [] => none
  | fuel + 1, c :: rest =>
    if c == '"' then some ([], rest)
    else if c == '\\' then
      match rest with
      | [] => none
      | e :: rest2 =>
        if e == 'u' then
          match rest2 with
          | h1 :: h2 :: h3 :: h4 :: rest3 =>
            match hexVal h1, hexVal h2, hexVal h3, hexVal h4 with
            | some a, some b, some c2, some d =>
              match parseStrBody fuel rest3 with
              | some (body, rem) => some (Char.ofNat (((a * 16 + b) * 16 + c2) * 16 + d) :: body, rem)
              | none => none
            | _, _, _, _ => none
          | _ => none
        else
          match escChar e with
          | some d =>
            match parseStrBody fuel rest2 with
            | some (body, rem) => some (d :: body, rem)
            | none => none
          | none => none
    else if c.toNat < 0x20 then none
    else
      match parseStrBody fuel rest with
      | some (body, rem) => some (c :: body, rem)
      | none => none

/-- A JSON string body with enough fuel for any input. -/
def parseStr (cs : List Char) : Option (List Char × List Char) :=
  parseStrBody (cs.length + 1) cs

/-- Integer part of a JSON number: `0`, or a nonzero digit followed by
digits. -/
def parseIntPart : List Char → Option (List Char × List Char)
  | [] => none
  | c :: rest =>
    if c = '0' then some (['0'], rest)
    else if c.isDigit then
      some (c :: rest.takeWhile Char.isDigit, rest.dropWhile Char.isDigit)
    else none

/-- Optional fraction part `.digits`; consumed only when fully valid
(mirroring the optional regex group of the scanner). -/
def parseFrac (cs : List Char) : List Char × List Char :=
  match cs with
  | [] => ([], cs)
  | c :: rest =>
    if c = '.' then
      let ds := rest.takeWhile Char.isDigit
      if ds.isEmpty then ([], cs) else ('.' :: ds, rest.dropWhile Char.isDigit)
    else ([], cs)

/-- Optional exponent part `[eE][+-]?digits`; consumed only when fully
valid. -/
def parseExp (cs : List Char) : List Char × List Char :=
  match cs with
  | c :: rest =>
    if c == 'e' || c == 'E' then
      match rest with
      | s :: rest2 =>
        if s == '+' || s == '-' then
          let ds := rest2.takeWhile Char.isDigit
          if ds.isEmpty then ([], cs) else (c :: s :: ds, rest2.dropWhile Char.isDigit)
        else
          let ds := rest.takeWhile Char.isDigit
          if ds.isEmpty then ([], cs) else (c :: ds, rest.dropWhile Char.isDigit)
      | [] => ([], cs)
    else ([], cs)
  | [] => ([], cs)

/-- A JSON number lexeme `-?int frac? exp?`. -/
def parseNum (cs : List Char) : Option (List Char × List Char) :=
  let (sign, cs1) :=
    match cs with
    | c :: r => if c = '-' then ((['-'] : List Char), r) else (([] : List Char), c :: r)
    | [] => (([] : List Char), [])
  match parseIntPart cs1 with
  | none => none
  | some (ip, r1) =>
    let (fp, r2) := parseFrac r1
    let (ep, r3) := parseExp r2
    some (sign ++ ip ++ fp ++ ep, r3)

/-- Strip a literal character sequence from the front of the input
(the constant checks `true` / `false` / `null` / `NaN` / `Infinity` /
`-Infinity` of the scanner). -/
def stripLit : List Char → List Char → Option (List Char)
  | [], cs => some cs
  | _ :: _, [] => none
  | p :: ps, c :: cs => if c = p then stripLit ps cs else none

mutual

/-- A JSON value at the current position (leading whitespace already
skipped).  `NaN`, `Infinity`, `-Infinity` are accepted as `json.loads`
does by default. -/
def parseValue : Nat → List Char → Option (Json × List Char)
  | 0, _ => none
  | fuel + 1, cs =>
    match cs with
    | [] => none
    | c :: rest =>
      if c = '"' then
        match parseStr rest with
        | some (body, rem) => some (.str (String.mk body), rem)
        | none => none
      else if c = '\x7b' then parseObjBody fuel (skipWs rest) [] true
      else if c = '[' then parseArrBody fuel (skipWs rest) [] true
      else
        match stripLit ['t', 'r', 'u', 'e'] (c :: rest) with
        | some r => some (.bool true, r)
        | none =>
          match stripLit ['f', 'a', 'l', 's', 'e'] (c :: rest) with
          | some r => some (.bool false, r)
          | none =>
            match stripLit ['n', 'u', 'l', 'l'] (c :: rest) with
            | some r => some (.null, r)
            | none =>
              match stripLit ['N', 'a', 'N'] (c :: rest) with
              | some r => some (.num "NaN", r)
              | none =>
                match stripLit ['I', 'n', 'f', 'i', 'n', 'i', 't', 'y'] (c :: rest) with
                | some r => some (.num "Infinity", r)
                | none =>
                  match stripLit ['-', 'I', 'n', 'f', 'i', 'n', 'i', 't', 'y'] (c :: rest) with
                  | some r => some (.num "-Infinity", r)
                  | none =>
                    match parseNum (c :: rest) with
                    | some (lex, rest2) => some (.num (String.mk lex), rest2)
                    | none => none

/-- Members of a JSON object after the opening brace (whitespace already
skipped); `first` is true before the first member, so that only the empty
object may close immediately. -/
def parseObjBody : Nat → List Char → List (String × Json) → Bool →
    Option (Json × List Char)
  | 0, _, _, _ => none
  | fuel + 1, cs, acc, first =>
    match cs with
    | [] => none
    | c :: rest =>
      if c = '\x7d' then (if first then some (.obj acc, rest) else none)
      else if c = '"' then
        match parseStr rest with
        | none => none
        | some (key, r1) =>
          match skipWs r1 with
          | [] => none
          | c2 :: r2 =>
            if c2 = ':' then
              match parseValue fuel (skipWs r2) with
              | none => none
              | some (v, r3) =>
                match skipWs r3 with
                | [] => none
                | c3 :: r4 =>
                  if c3 = ',' then
                    parseObjBody fuel (skipWs r4) (acc ++ [(String.mk key, v)]) false
                  else if c3 = '\x7d' then some (.obj (acc ++ [(String.mk key, v)]), r4)
                  else none
            else none
      else none

/-- Elements of a JSON array after the opening bracket (whitespace
already skipped). -/
def parseArrBody : Nat → List Char → List Json → Bool → Option (Json × List Char)
  | 0, _, _, _ => none
  | fuel + 1, cs, acc, first =>
    match cs with
    | [] => none
    | c :: rest =>
      if c = ']' then (if first then some (.arr acc, rest) else none)
      else
        match parseValue fuel (c :: rest) with
        | none => none
        | some (v, r1) =>
          match skipWs r1 with
          | [] => none
          | c2 :: r2 =>
            if c2 = ',' then parseArrBody fuel (skipWs r2) (acc ++ [v]) false
            else if c2 = ']' then some (.arr (acc ++ [v]), r2)
            else none

end

/-- `json.loads`: surrounding whitespace allowed, trailing junk rejected.
The fuel `2 * length + 4` dominates the recursion depth of any input
(each two fuel steps consume at least one character). -/
def json_loads (s : String) : Option Json :=
  match parseValue (2 * s.length + 4) (skipWs s.toList) with
  | some (v, rest) => if (skipWs rest).isEmpty then some v else none
  | none => none

/-! ## The line-format regex `^(\S+)\s+\|\s+(.+)$`

`re.match` with Python backtracking semantics.  The leading `\S+` can
only succeed with the maximal nonspace run (any shorter attempt leaves a
nonspace character where `\s+` must start), and likewise the `\s+`
before `|`.  The `\s+` after `|` genuinely backtracks against `(.+)$`
(`findWsSplit`), and `(.+)$` matches a nonempty newline-free run at the
end of the input or just before a final newline (`dotCapture`). -/

/-- No newline character in the run (what `.` may cross). -/
def noNL (cs : List Char) : Bool := cs.all (fun c => !(c == '\n'))

/-- What `(.+)$` captures from the remaining input, if anything. -/
def dotCapture (r : List Char) : Option (List Char) :=
  if r.isEmpty then none
  else if noNL r then some r
  else if r.getLast? == some '\n' && !r.dropLast.isEmpty && noNL r.dropLast then
    some r.dropLast
  else none

/-- Backtracking of the `\s+` after `|`: try the whitespace prefix of
length `j`, `j - 1`, ..., `1` and return the first `(.+)$` capture. -/
def findWsSplit : Nat → List Char → Option (List Char)
  | 0, _ => none
  | j + 1, t =>
    match dotCapture (t.drop (j + 1)) with
    | some g => some g
    | none => findWsSplit j t

/-- `re.match(r'^(\S+)\s+\|\s+(.+)$', line)`: the service token and the
payload, or `none`. -/
def reMatch (line : String) : Option (String × String) :=
  let cs := line.toList
  let svc := cs.takeWhile (fun c => !pyIsSpace c)
  if svc.isEmpty then none
  else
    let t0 := cs.dropWhile (fun c => !pyIsSpace c)
    if (t0.takeWhile pyIsSpace).isEmpty then none
    else
      match t0.dropWhile pyIsSpace with
      | '|' :: t2 =>
        let wlen := (t2.takeWhile pyIsSpace).length
        if wlen == 0 then none
        else
          match findWsSplit wlen t2 with
          | some g => some (String.mk svc, String.mk g)
          | none => none
      | _ => none

/-! ## `parse_log_line` -/

/-- The record built by `parse_log_line`.  Structured-payload fields keep
their JSON values (the Python dict is heterogeneous); `caller` is present
only when the payload had one. -/
structure ParsedRecord where
  service : Option String
  timestamp : Option Json
  level : Option Json
  message : Option Json
  error : Option Json
  caller : Option Json
  raw : String

/-- Python `payload.startswith('\x7b')`. -/
def startsLbrace (s : String) : Bool :=
  s.toList.head? == some '\x7b'

/-- `parse_log_line`: split on the delimiter regex; a `\x7b`-initial
payload goes through `json.loads` (any failure — including a non-dict
result, whose `.get` would raise inside the `try` — falls back to the
whole payload as message); a plain payload gets a heuristic level from
the substrings `error` / `warn` of its lowercasing.  Total: the Python
function never raises (all payload failures are caught). -/
def parse_log_line (line : String) : ParsedRecord :=
  let base : ParsedRecord :=
    { service := none, timestamp := none, level := none, message := none,
      error := none, caller := none, raw := pyStrip line }
  match reMatch line with
  | none => base
  | some (service, log_content) =>
    let r1 := { base with service := some service }
    if startsLbrace log_content then
      match json_loads log_content with
      | some (.obj d) =>
        { r1 with
          level := some ((jget d "level").getD (.str "info")),
          message := some ((jget d "msg").getD (.str "")),
          timestamp := some ((jget d "ts").getD (.num "0")),
          error := some ((jget d "error").getD (.str "")),
          caller := jget d "caller" }
      | some _ => { r1 with message := some (.str log_content) }
      | none => { r1 with message := some (.str log_content) }
    else
      let r2 := { r1 with message := some (.str log_content) }
      if pyIn "error" (pyLowerStr log_content) then { r2 with level := some (.str "error") }
      else if pyIn "warn" (pyLowerStr log_content) then { r2 with level := some (.str "warn") }
      else r2

/-! ## `analyze_logs` -/

/-- An entry of the `errors` bucket. -/
structure ErrRec where
  service : Option String
  message : Json
  error : Json
  caller : Json
  raw : String

/-- An entry of the `warnings` or `info` bucket. -/
structure SvcMsg where
  service : Option String
  message : Json

/-- An entry of the `fatal` bucket. -/
structure FatalRec where
  service : Option String
  message : Json
  error : Json
  raw : String

/-- An entry of the `connection_errors` bucket. -/
structure ConnRec where
  service : Option String
  message : Json
  error : Json
  raw : String

/-- An entry of the `startup_sequence` bucket. -/
structure StartupRec where
  service : Option String
  message : Json
  timestamp : Option Json

/-- An entry of the `health_checks` bucket. -/
structure HealthRec where
  service : Option String
  message : Json
  status : String

/-- The `Analysis` aggregate.  `services` is a `defaultdict(int)` in
insertion order; `service_status` is declared but never written. -/
structure Analysis where
  services : List (String × Nat)
  errors : List ErrRec
  warnings : List SvcMsg
  info : List SvcMsg
  fatal : List FatalRec
  connection_errors : List ConnRec
  startup_sequence : List StartupRec
  health_checks : List HealthRec
  service_status : List (String × Json)

/-- The empty aggregate `analyze_logs` starts from. -/
def initAnalysis : Analysis :=
  { services := [], errors := [], warnings := [], info := [], fatal := [],
    connection_errors := [], startup_sequence := [], health_checks := [],
    service_status := [] }

/-- `analysis['services'][s] += 1` on a `defaultdict(int)` in insertion
order. -/
def incrService : List (String × Nat) → String → List (String × Nat)
  | [], s => [(s, 1)]
  | (k, v) :: rest, s =>
    if k = s then (k, v + 1) :: rest else (k, v) :: incrService rest s

/-- Sum of the per-service counters. -/
def svcTotal (l : List (String × Nat)) : Nat := (l.map (fun p => p.2)).sum

/-- The connection-error substring test on `full_text`. -/
def connCond (ft : String) : Bool :=
  pyIn "connection refused" ft || pyIn "connect() failed" ft || pyIn "dial error" ft

/-- The startup-sequence keyword test on the lowercased message. -/
def startupCond (ms : String) : Bool :=
  ["starting", "started", "connected", "initialized"].any
    (fun k => pyIn k (pyLowerStr ms))

/-- The health-check test on the message. -/
def healthCond (ms : String) : Bool :=
  pyIn "health" (pyLowerStr ms) || pyIn "/health" ms

/-- The loop body of `analyze_logs` after the blank-line skip and the
`parse_log_line` call.  `line` is still needed for the raw
`status":200` probe of the health bucket.  The two possible Python
exceptions surface as `Except.error`. -/
def stepParsed (a : Analysis) (line : String) (parsed : ParsedRecord) :
    Except String Analysis :=
  let a1 :=
    match parsed.service with
    | some s => if s ≠ "" then { a with services := incrService a.services s } else a
    | none => a
  match pyLowerVal (pyOr parsed.level (.str "info")) with
  | .error msg => .error msg
  | .ok level =>
    let messageV := pyOr parsed.message (.str "")
    let errorV := pyOr parsed.error (.str "")
    let a2 :=
      if level = "error" then
        { a1 with errors := a1.errors ++
            [{ service := parsed.service, message := messageV, error := errorV,
               caller := parsed.caller.getD (.str ""), raw := parsed.raw }] }
      else if level = "warn" then
        { a1 with warnings := a1.warnings ++
            [{ service := parsed.service, message := messageV }] }
      else if level = "fatal" then
        { a1 with fatal := a1.fatal ++
            [{ service := parsed.service, message := messageV, error := errorV,
               raw := parsed.raw }] }
      else if level = "info" then
        { a1 with info := a1.info ++
            [{ service := parsed.service, message := messageV }] }
      else a1
    match concatStr messageV errorV with
    | .error msg => .error msg
    | .ok (ms, es) =>
      let fullText := pyLowerStr (ms ++ " " ++ es)
      let a3 :=
        if connCond fullText then
          { a2 with connection_errors := a2.connection_errors ++
              [{ service := parsed.service, message := messageV, error := errorV,
                 raw := parsed.raw }] }
        else a2
      let a4 :=
        if startupCond ms then
          { a3 with startup_sequence := a3.startup_sequence ++
              [{ service := parsed.service, message := messageV,
                 timestamp := parsed.timestamp }] }
        else a3
      let a5 :=
        if healthCond ms then
          { a4 with health_checks := a4.health_checks ++
              [{ service := parsed.service, message := messageV,
                 status := if pyIn "status\":200" line then "200" else "unknown" }] }
        else a4
      .ok a5

/-- One iteration of the `analyze_logs` loop: skip blank lines, parse,
classify. -/
def stepLine (a : Analysis) (line : String) : Except String Analysis :=
  if pyStrip line = "" then .ok a else stepParsed a line (parse_log_line line)

/-- `analyze_logs`: the single pass over all lines. -/
def analyze_logs (logs : List String) : Except String Analysis :=
  logs.foldlM stepLine initAnalysis

/-! ## The connection-label heuristic of `print_analysis` -/

/-- The three hard-coded downstream-dependency labels. -/
inductive ConnLabel where
  | fabricPeer : ConnLabel
  | postgres : ConnLabel
  | apiGateway : ConnLabel
deriving DecidableEq

/-- The per-entry label decision of `print_analysis` on a connection
error's raw line: guarded by `172.21.0.` / `7051` / `5432`, then `7051`
→ Fabric peer, else `5432` → PostgreSQL, else `8080` → API gateway. -/
def connLabel (raw : String) : Option ConnLabel :=
  if pyIn "172.21.0." raw || pyIn "7051" raw || pyIn "5432" raw then
    if pyIn "7051" raw then some .fabricPeer
    else if pyIn "5432" raw then some .postgres
    else if pyIn "8080" raw then some .apiGateway
    else none
  else none

/-! ## `generate_seed.py` -/

/-- The values interpolated into one INSERT statement of the seed
generator (the SQL template is a fixed string over these). -/
structure InsertRow where
  txId : String
  channelName : String
  chaincodeName : String
  functionName : String
  args : List String
  status : String
  blockNumber : Nat
  blockHash : String
  timestamp : String
  tableName : String
deriving DecidableEq

/-- The random/environment sources of the generator, as oracle streams
indexed by call position: sha256-of-uuid hex digests (`txId`,
`blockHash`), `uuid4().hex[:8].upper()` (`entHex`), the draws behind
`random.randint` (`blockDraw`) and `random.choice` (`choiceDraw`), and
the `datetime.now()`-derived ISO timestamps (`nowIso`). -/
structure SeedRand where
  txId : Nat → String
  entHex : Nat → String
  blockHash : Nat → String
  blockDraw : Nat → Nat
  choiceDraw : Nat → Nat
  nowIso : Nat → String

/-- `random.randint(lo, hi)` from a draw: a value in `[lo, hi]`. -/
def pyRandint (lo hi d : Nat) : Nat := lo + d % (hi + 1 - lo)

/-- `random.choice(l)` from a draw: an element of `l` (any nonempty `l`). -/
def pyChoice (l : List String) (d : Nat) : String := l.getD (d % l.length) ""

/-- The `batches` list: the five batch ids created by the first loop. -/
def batchIds (g : SeedRand) : List String :=
  (List.range 5).map (fun i => "BATCH_" ++ g.entHex i)

/-- The `packages` list: the ten package ids created by the second loop. -/
def packageIds (g : SeedRand) : List String :=
  (List.range 10).map (fun i => "PKG_" ++ g.entHex (5 + i))

/-- The five CreateBatch INSERTs. -/
def createBatchStmts (g : SeedRand) : List InsertRow :=
  (List.range 5).map (fun i =>
    { txId := g.txId i, channelName := "ibnchannel", chaincodeName := "teatrace",
      functionName := "CreateBatch",
      args := ["BATCH_" ++ g.entHex i, "Tea Batch " ++ toString (i + 1),
               "Organic Green Tea", "1000kg"],
      status := "VALID", blockNumber := pyRandint 10 100 (g.blockDraw i),
      blockHash := g.blockHash i, timestamp := g.nowIso i,
      tableName := "transactions" })

/-- The ten CreatePackage INSERTs; each references `random.choice(batches)`. -/
def createPackageStmts (g : SeedRand) : List InsertRow :=
  (List.range 10).map (fun i =>
    { txId := g.txId (5 + i), channelName := "ibnchannel", chaincodeName := "teatrace",
      functionName := "CreatePackage",
      args := ["PKG_" ++ g.entHex (5 + i), pyChoice (batchIds g) (g.choiceDraw i),
               "Premium Tea Package", "500g"],
      status := "VALID", blockNumber := pyRandint 101 200 (g.blockDraw (5 + i)),
      blockHash := g.blockHash (5 + i), timestamp := g.nowIso (5 + i),
      tableName := "transactions" })

/-- The eight UpdatePackage INSERTs. -/
def updatePackageStmts (g : SeedRand) : List InsertRow :=
  (List.range 8).map (fun i =>
    { txId := g.txId (15 + i), channelName := "ibnchannel", chaincodeName := "teatrace",
      functionName := "UpdatePackage",
      args := [pyChoice (packageIds g) (g.choiceDraw (10 + i)), "PROCESSING",
               "Drying tea leaves"],
      status := "VALID", blockNumber := pyRandint 201 300 (g.blockDraw (15 + i)),
      blockHash := g.blockHash (15 + i), timestamp := g.nowIso (15 + i),
      tableName := "transactions" })

/-- The five TransferPackage INSERTs. -/
def transferPackageStmts (g : SeedRand) : List InsertRow :=
  (List.range 5).map (fun i =>
    { txId := g.txId (23 + i), channelName := "ibnchannel", chaincodeName := "teatrace",
      functionName := "TransferPackage",
      args := [pyChoice (packageIds g) (g.choiceDraw (18 + i)), "Distributor A",
               "Retailer B"],
      status := "VALID", blockNumber := pyRandint 301 400 (g.blockDraw (23 + i)),
      blockHash := g.blockHash (23 + i), timestamp := g.nowIso (23 + i),
      tableName := "transactions" })

/-- `sql_statements`: the 28 INSERTs in generation order. -/
def sql_statements (g : SeedRand) : List InsertRow :=
  createBatchStmts g ++ createPackageStmts g ++ updatePackageStmts g ++
    transferPackageStmts g

/-- The aggregate produced by one successful iteration of the
`analyze_logs` loop body, given the normalized level `lv` and the string
forms `ms`/`es` of message and error (the same computation as the success
path of `stepParsed`, named so that proofs can speak about the outcome). -/
def stepOutcome (a : Analysis) (line : String) (p : ParsedRecord)
    (lv ms es : String) : Analysis :=
  let a1 :=
    match p.service with
    | some s => if s ≠ "" then { a with services := incrService a.services s } else a
    | none => a
  let messageV := pyOr p.message (.str "")
  let errorV := pyOr p.error (.str "")
  let a2 :=
    if lv = "error" then
      { a1 with errors := a1.errors ++
          [{ service := p.service, message := messageV, error := errorV,
             caller := p.caller.getD (.str ""), raw := p.raw }] }
    else if lv = "warn" then
      { a1 with warnings := a1.warnings ++
          [{ service := p.service, message := messageV }] }
    else if lv = "fatal" then
      { a1 with fatal := a1.fatal ++
          [{ service := p.service, message := messageV, error := errorV,
             raw := p.raw }] }
    else if lv = "info" then
      { a1 with info := a1.info ++
          [{ service := p.service, message := messageV }] }
    else a1
  let fullText := pyLowerStr (ms ++ " " ++ es)
  let a3 :=
    if connCond fullText then
      { a2 with connection_errors := a2.connection_errors ++
          [{ service := p.service, message := messageV, error := errorV,
             raw := p.raw }] }
    else a2
  let a4 :=
    if startupCond ms then
      { a3 with startup_sequence := a3.startup_sequence ++
          [{ service := p.service, message := messageV,
             timestamp := p.timestamp }] }
    else a3
  let a5 :=
    if healthCond ms then
      { a4 with health_checks := a4.health_checks ++
          [{ service := p.service, message := messageV,
             status := if pyIn "status\":200" line then "200" else "unknown" }] }
    else a4
  a5

/-! ## Projections and witness fixtures -/

/-- The payload shape of the spec's error-line scenario:
`\x7b"level":"error","msg":m,"error":e\x7d`. -/
def payloadStr (m e : String) : String :=
  "\x7b\"level\":\"error\",\"msg\":\"" ++ m ++ "\",\"error\":\"" ++ e ++ "\"\x7d"

/-- The part of an errors entry not derived from the raw line. -/
def ErrRec.core (r : ErrRec) : Option String × Json × Json × Json :=
  (r.service, r.message, r.error, r.caller)

/-- The part of a fatal entry not derived from the raw line. -/
def FatalRec.core (r : FatalRec) : Option String × Json × Json :=
  (r.service, r.message, r.error)

/-- The part of a connection-error entry not derived from the raw line. -/
def ConnRec.core (r : ConnRec) : Option String × Json × Json :=
  (r.service, r.message, r.error)

/-- The part of a health-check entry not derived from the raw line. -/
def HealthRec.core (r : HealthRec) : Option String × Json :=
  (r.service, r.message)

/-- The analysis of the single line `a | b`. -/
def infoA : Analysis :=
  { services := [("a", 1)], errors := [], warnings := [],
    info := [{ service := some "a", message := .str "b" }], fatal := [],
    connection_errors := [], startup_sequence := [], health_checks := [],
    service_status := [] }

/-- The analysis of the single line `n | connect() failed`. -/
def connA : Analysis :=
  { services := [("n", 1)], errors := [], warnings := [],
    info := [{ service := some "n", message := .str "connect() failed" }],
    fatal := [],
    connection_errors := [{ service := some "n", message := .str "connect() failed",
                            error := .str "", raw := "n | connect() failed" }],
    startup_sequence := [], health_checks := [], service_status := [] }

/-- A constant random oracle for concrete runs of the seed generator. -/
def gConst : SeedRand :=
  { txId := fun _ => "t", entHex := fun _ => "h", blockHash := fun _ => "b",
    blockDraw := fun _ => 0, choiceDraw := fun _ => 0, nowIso := fun _ => "now" }

/-- The first CreatePackage row produced under `gConst`. -/
def cpFirst : InsertRow :=
  { txId := "t", channelName := "ibnchannel", chaincodeName := "teatrace",
    functionName := "CreatePackage",
    args := ["PKG_h", "BATCH_h", "Premium Tea Package", "500g"],
    status := "VALID", blockNumber := 101, blockHash := "b", timestamp := "now",
    tableName := "transactions" }

/-! ## List and string helper lemmas -/

theorem mk_toList (s : String) : String.mk s.toList = s := rfl

theorem toList_app (s t : String) : (s ++ t).toList = s.toList ++ t.toList := rfl

theorem toList_ne_nil {s : String} (h : s ≠ "") : s.toList ≠ [] := by
  intro hn
  exact h (by rw [← mk_toList s, hn])

theorem takeWhile_app (p : Char → Bool) (xs : List Char) (y : Char) (ys : List Char)
    (hxs : ∀ c ∈ xs, p c = true) (hy : p y = false) :
    (xs ++ y :: ys).takeWhile p = xs := by
  induction xs with
  | nil => simp [List.takeWhile, hy]
  | cons c rest ih =>
    have hc : p c = true := hxs c (by simp)
    simp only [List.cons_append, List.takeWhile_cons, hc, if_true]
    rw [ih (fun d md => hxs d (by simp [md]))]

theorem dropWhile_app (p : Char → Bool) (xs : List Char) (y : Char) (ys : List Char)
    (hxs : ∀ c ∈ xs, p c = true) (hy : p y = false) :
    (xs ++ y :: ys).dropWhile p = y :: ys := by
  induction xs with
  | nil => simp [List.dropWhile, hy]
  | cons c rest ih =>
    have hc : p c = true := hxs c (by simp)
    simp only [List.cons_append, List.dropWhile_cons, hc, if_true]
    exact ih (fun d md => hxs d (by simp [md]))

theorem isEmpty_false_of_ne_nil {l : List Char} (h : l ≠ []) : l.isEmpty = false := by
  cases l with
  | nil => exact absurd rfl h
  | cons c rest => rfl

/-- The delimiter regex on a line `sv ++ " | " ++ payload` with a
nonempty nonspace service token and a payload that is nonempty, does not
start with whitespace and contains no newline: it matches with exactly
these two groups. -/
theorem reMatch_concat (sv payload : String)
    (hs : sv ≠ "") (hsp : ∀ c ∈ sv.toList, pyIsSpace c = false)
    (p0 : Char) (ptl : List Char) (hp : payload.toList = p0 :: ptl)
    (hp0 : pyIsSpace p0 = false) (hnl : noNL payload.toList = true) :
    reMatch (sv ++ " | " ++ payload) = some (sv, payload) := by
  have hline : (sv ++ " | " ++ payload).toList
      = sv.toList ++ (' ' :: '|' :: ' ' :: payload.toList) := by
    rw [toList_app, toList_app, List.append_assoc]
    rfl
  have htw : (sv.toList ++ (' ' :: '|' :: ' ' :: payload.toList)).takeWhile
      (fun c => !pyIsSpace c) = sv.toList :=
    takeWhile_app _ _ _ _ (fun c mc => by simp [hsp c mc]) (by decide)
  have hdw : (sv.toList ++ (' ' :: '|' :: ' ' :: payload.toList)).dropWhile
      (fun c => !pyIsSpace c) = ' ' :: '|' :: ' ' :: payload.toList :=
    dropWhile_app _ _ _ _ (fun c mc => by simp [hsp c mc]) (by decide)
  have h1 : sv.toList.isEmpty = false := isEmpty_false_of_ne_nil (toList_ne_nil hs)
  have hsp1 : pyIsSpace ' ' = true := by decide
  have hsp2 : pyIsSpace '|' = false := by decide
  have hdot : dotCapture (p0 :: ptl) = some (p0 :: ptl) := by
    have h2 : noNL (p0 :: ptl) = true := by rw [← hp]; exact hnl
    simp [dotCapture, h2]
  have hfw : findWsSplit 1 (' ' :: p0 :: ptl) = some (p0 :: ptl) := by
    show (match dotCapture ((' ' :: p0 :: ptl).drop 1) with
      | some g => some g
      | none => findWsSplit 0 (' ' :: p0 :: ptl)) = some (p0 :: ptl)
    rw [List.drop_one, List.tail_cons, hdot]
  rw [reMatch]
  rw [hline, htw, hdw, h1]
  rw [hp]
  simp only [Bool.false_eq_true, if_false, List.takeWhile_cons, hsp1, hsp2, if_true,
    if_false, List.isEmpty_cons, List.dropWhile_cons, hp0, List.length_cons,
    List.length_nil, Nat.zero_add, List.takeWhile_nil]
  rw [hfw]
  rw [← hp, mk_toList]
  simp [mk_toList]

/-! ## JSON parser lemmas -/

/-- Characters that pass through a JSON string body verbatim. -/
theorem parseStrBody_ordinary (m : List Char) :
    ∀ (fuel : Nat) (rest : List Char),
      (∀ c ∈ m, c ≠ '"' ∧ c ≠ '\\' ∧ 0x20 ≤ c.toNat) → m.length < fuel →
      parseStrBody fuel (m ++ '"' :: rest) = some (m, rest) := by
  induction m with
  | nil =>
    intro fuel rest _ hf
    match fuel, hf with
    | f + 1, _ => simp [parseStrBody]
  | cons c m' ih =>
    intro fuel rest hc hf
    match fuel, hf with
    | f + 1, hf =>
      have h1 := hc c (by simp)
      have hq : (c == '"') = false := by simp [h1.1]
      have hb : (c == '\\') = false := by simp [h1.2.1]
      have hctl : ¬ c.toNat < 0x20 := by omega
      have hlen : m'.length < f := by
        have := hf
        simp only [List.length_cons] at this
        omega
      have ihr : parseStrBody f (m' ++ '"' :: rest) = some (m', rest) :=
        ih f rest (fun d md => hc d (by simp [md])) hlen
      simp [parseStrBody, hq, hb, hctl, ihr]

theorem parseStr_ordinary (m rest : List Char)
    (hc : ∀ c ∈ m, c ≠ '"' ∧ c ≠ '\\' ∧ 0x20 ≤ c.toNat) :
    parseStr (m ++ '"' :: rest) = some (m, rest) := by
  apply parseStrBody_ordinary m _ rest hc
  simp [List.length_append]
  omega

theorem skipWs_nows (c : Char) (rest : List Char) (h : isJsonWs c = false) :
    skipWs (c :: rest) = c :: rest := by
  simp [skipWs, h]

/-- A quoted string value made of ordinary characters. -/
theorem parseValue_str (fuel : Nat) (sval rest : List Char)
    (hs : ∀ c ∈ sval, c ≠ '"' ∧ c ≠ '\\' ∧ 0x20 ≤ c.toNat) :
    parseValue (fuel + 1) ('"' :: (sval ++ '"' :: rest))
      = some (.str (String.mk sval), rest) := by
  simp [parseValue, parseStr_ordinary sval rest hs]

theorem parseValue_lbrace (fuel : Nat) (rest : List Char) :
    parseValue (fuel + 1) ('\x7b' :: rest) = parseObjBody fuel (skipWs rest) [] true := by
  simp [parseValue]

/-- One object member `"key":value...` with an ordinary key. -/
theorem parseObjBody_member (fuel : Nat) (key : List Char) (vrest : List Char)
    (acc : List (String × Json)) (first : Bool)
    (hk : ∀ c ∈ key, c ≠ '"' ∧ c ≠ '\\' ∧ 0x20 ≤ c.toNat) :
    parseObjBody (fuel + 1) ('"' :: (key ++ '"' :: ':' :: vrest)) acc first =
      (match parseValue fuel (skipWs vrest) with
       | none => none
       | some (v, r3) =>
         match skipWs r3 with
         | [] => none
         | c3 :: r4 =>
           if c3 = ',' then parseObjBody fuel (skipWs r4) (acc ++ [(String.mk key, v)]) false
           else if c3 = '\x7d' then some (.obj (acc ++ [(String.mk key, v)]), r4)
           else none) := by
  have h1 := parseStr_ordinary key (':' :: vrest) hk
  have h2 : isJsonWs ':' = false := by decide
  simp [parseObjBody, h1, skipWs_nows _ _ h2]

/-- `json.loads` on the error-line payload shape: an object with exactly
the three members `level`/`msg`/`error`, in order. -/
theorem json_loads_triple (m e : String)
    (hm : ∀ c ∈ m.toList, c ≠ '"' ∧ c ≠ '\\' ∧ 0x20 ≤ c.toNat)
    (he : ∀ c ∈ e.toList, c ≠ '"' ∧ c ≠ '\\' ∧ 0x20 ≤ c.toNat) :
    json_loads (payloadStr m e)
      = some (.obj [("level", .str "error"), ("msg", .str m), ("error", .str e)]) := by
  have hA : ("\x7b\"level\":\"error\",\"msg\":\"").toList
      = ['\x7b', '"', 'l', 'e', 'v', 'e', 'l', '"', ':', '"', 'e', 'r', 'r', 'o', 'r',
         '"', ',', '"', 'm', 's', 'g', '"', ':', '"'] := rfl
  have hB : ("\",\"error\":\"").toList
      = ['"', ',', '"', 'e', 'r', 'r', 'o', 'r', '"', ':', '"'] := rfl
  have hC : ("\"\x7d").toList = ['"', '\x7d'] := rfl
  have hL : (payloadStr m e).toList
      = ('\x7b' :: ('"' :: ((['l', 'e', 'v', 'e', 'l'] : List Char) ++ ('"' :: (':' ::
          ('"' :: ((['e', 'r', 'r', 'o', 'r'] : List Char) ++ ('"' :: (',' ::
          ('"' :: ((['m', 's', 'g'] : List Char) ++ ('"' :: (':' ::
          ('"' :: (m.toList ++ ('"' :: (',' ::
          ('"' :: ((['e', 'r', 'r', 'o', 'r'] : List Char) ++ ('"' :: (':' ::
          ('"' :: (e.toList ++ ('"' :: ('\x7d' ::
            ([] : List Char)))))))))))))))))))))))))) := by
    simp only [payloadStr, toList_app]
    rw [hA, hB, hC]
    simp
  have hq : isJsonWs '"' = false := by decide
  have hcm : isJsonWs ',' = false := by decide
  have hrb : isJsonWs '\x7d' = false := by decide
  have hordLevel : ∀ c ∈ (['l', 'e', 'v', 'e', 'l'] : List Char),
      c ≠ '"' ∧ c ≠ '\\' ∧ 0x20 ≤ c.toNat := by decide
  have hordError : ∀ c ∈ (['e', 'r', 'r', 'o', 'r'] : List Char),
      c ≠ '"' ∧ c ≠ '\\' ∧ 0x20 ≤ c.toNat := by decide
  have hordMsg : ∀ c ∈ (['m', 's', 'g'] : List Char),
      c ≠ '"' ∧ c ≠ '\\' ∧ 0x20 ≤ c.toNat := by decide
  have hS1 : String.mk ['l', 'e', 'v', 'e', 'l'] = "level" := rfl
  have hS2 : String.mk ['m', 's', 'g'] = "msg" := rfl
  have hS3 : String.mk ['e', 'r', 'r', 'o', 'r'] = "error" := rfl
  have hwalk : ∀ f : Nat, parseValue (f + 1 + 1 + 1 + 1 + 1) ((payloadStr m e).toList)
      = some (.obj [("level", .str "error"), ("msg", .str m), ("error", .str e)], []) := by
    intro f
    rw [hL]
    rw [parseValue_lbrace]
    simp (disch := assumption) only [parseObjBody_member, parseValue_str, skipWs_nows]
    simp [hS1, hS2, hS3, mk_toList]
  have hpos : 1 ≤ (payloadStr m e).length := by
    rw [show (payloadStr m e).length = ((payloadStr m e).toList).length from rfl, hL]
    simp
  have hf : 2 * (payloadStr m e).length + 4
      = (2 * (payloadStr m e).length - 1) + 1 + 1 + 1 + 1 + 1 := by omega
  have hskip : skipWs ((payloadStr m e).toList) = (payloadStr m e).toList := by
    rw [hL]
    exact skipWs_nows _ _ (by decide)
  rw [json_loads, hskip, hf, hwalk]
  rfl

/-! ## Shape of one classifier iteration -/

/-- A successful `stepParsed` is exactly a `stepOutcome` at the computed
level and message/error strings. -/
theorem stepParsed_ok_elim (a : Analysis) (line : String) (p : ParsedRecord)
    (a' : Analysis) (h : stepParsed a line p = .ok a') :
    ∃ lv ms es,
      pyLowerVal (pyOr p.level (.str "info")) = .ok lv ∧
      concatStr (pyOr p.message (.str "")) (pyOr p.error (.str "")) = .ok (ms, es) ∧
      a' = stepOutcome a line p lv ms es := by
  simp only [stepParsed] at h
  split at h
  · exact Except.noConfusion h
  · rename_i lv heq1
    split at h
    · exact Except.noConfusion h
    · rename_i ms es heq2
      refine ⟨lv, ms, es, heq1, heq2, ?_⟩
      injection h with h2
      rw [← h2]
      rfl

/-- Conversely, once level normalization and the message/error
concatenation succeed, the iteration succeeds with that outcome. -/
theorem stepParsed_ok_intro (a : Analysis) (line : String) (p : ParsedRecord)
    (lv ms es : String)
    (h1 : pyLowerVal (pyOr p.level (.str "info")) = .ok lv)
    (h2 : concatStr (pyOr p.message (.str "")) (pyOr p.error (.str "")) = .ok (ms, es)) :
    stepParsed a line p = .ok (stepOutcome a line p lv ms es) := by
  simp only [stepParsed, h1, h2]
  rfl

theorem stepOutcome_services (a : Analysis) (line : String) (p : ParsedRecord)
    (lv ms es : String) :
    (stepOutcome a line p lv ms es).services =
      (match p.service with
       | some s => if s ≠ "" then incrService a.services s else a.services
       | none => a.services) := by
  cases hs : p.service <;> simp [stepOutcome, hs, apply_ite (Analysis.services)]

theorem stepOutcome_status (a : Analysis) (line : String) (p : ParsedRecord)
    (lv ms es : String) :
    (stepOutcome a line p lv ms es).service_status = a.service_status := by
  cases hs : p.service <;> simp [stepOutcome, hs, apply_ite (Analysis.service_status)]

theorem stepOutcome_errors (a : Analysis) (line : String) (p : ParsedRecord)
    (lv ms es : String) :
    (stepOutcome a line p lv ms es).errors =
      (if lv = "error" then a.errors ++
          [{ service := p.service, message := pyOr p.message (.str ""),
             error := pyOr p.error (.str ""), caller := p.caller.getD (.str ""),
             raw := p.raw }]
       else a.errors) := by
  cases hs : p.service <;> simp [stepOutcome, hs, apply_ite (Analysis.errors)]

theorem stepOutcome_warnings (a : Analysis) (line : String) (p : ParsedRecord)
    (lv ms es : String) :
    (stepOutcome a line p lv ms es).warnings =
      (if lv = "error" then a.warnings
       else if lv = "warn" then a.warnings ++
          [{ service := p.service, message := pyOr p.message (.str "") }]
       else a.warnings) := by
  cases hs : p.service <;> simp [stepOutcome, hs, apply_ite (Analysis.warnings)]

theorem stepOutcome_fatal (a : Analysis) (line : String) (p : ParsedRecord)
    (lv ms es : String) :
    (stepOutcome a line p lv ms es).fatal =
      (if lv = "error" then a.fatal
       else if lv = "warn" then a.fatal
       else if lv = "fatal" then a.fatal ++
          [{ service := p.service, message := pyOr p.message (.str ""),
             error := pyOr p.error (.str ""), raw := p.raw }]
       else a.fatal) := by
  cases hs : p.service <;> simp [stepOutcome, hs, apply_ite (Analysis.fatal)]

theorem stepOutcome_info (a : Analysis) (line : String) (p : ParsedRecord)
    (lv ms es : String) :
    (stepOutcome a line p lv ms es).info =
      (if lv = "error" then a.info
       else if lv = "warn" then a.info
       else if lv = "fatal" then a.info
       else if lv = "info" then a.info ++
          [{ service := p.service, message := pyOr p.message (.str "") }]
       else a.info) := by
  cases hs : p.service <;> simp [stepOutcome, hs, apply_ite (Analysis.info)]

theorem stepOutcome_conn (a : Analysis) (line : String) (p : ParsedRecord)
    (lv ms es : String) :
    (stepOutcome a line p lv ms es).connection_errors =
      (if connCond (pyLowerStr (ms ++ " " ++ es)) then a.connection_errors ++
          [{ service := p.service, message := pyOr p.message (.str ""),
             error := pyOr p.error (.str ""), raw := p.raw }]
       else a.connection_errors) := by
  cases hs : p.service <;> simp [stepOutcome, hs, apply_ite (Analysis.connection_errors)]

theorem stepOutcome_startup (a : Analysis) (line : String) (p : ParsedRecord)
    (lv ms es : String) :
    (stepOutcome a line p lv ms es).startup_sequence =
      (if startupCond ms then a.startup_sequence ++
          [{ service := p.service, message := pyOr p.message (.str ""),
             timestamp := p.timestamp }]
       else a.startup_sequence) := by
  cases hs : p.service <;> simp [stepOutcome, hs, apply_ite (Analysis.startup_sequence)]

theorem stepOutcome_health (a : Analysis) (line : String) (p : ParsedRecord)
    (lv ms es : String) :
    (stepOutcome a line p lv ms es).health_checks =
      (if healthCond ms then a.health_checks ++
          [{ service := p.service, message := pyOr p.message (.str ""),
             status := if pyIn "status\":200" line then "200" else "unknown" }]
       else a.health_checks) := by
  cases hs : p.service <;> simp [stepOutcome, hs, apply_ite (Analysis.health_checks)]

/-! ## `parse_log_line` lemmas -/

/-- The parsed record of a matched line with a structured payload. -/
theorem parse_structured (line sv payload : String) (d : List (String × Json))
    (hre : reMatch line = some (sv, payload))
    (hlb : startsLbrace payload = true)
    (hj : json_loads payload = some (.obj d)) :
    parse_log_line line =
      { service := some sv,
        timestamp := some ((jget d "ts").getD (.num "0")),
        level := some ((jget d "level").getD (.str "info")),
        message := some ((jget d "msg").getD (.str "")),
        error := some ((jget d "error").getD (.str "")),
        caller := jget d "caller",
        raw := pyStrip line } := by
  simp [parse_log_line, hre, hlb, hj]

/-- The service field is exactly the first regex group. -/
theorem parse_log_line_service (line : String) :
    (parse_log_line line).service = (reMatch line).map (fun pr => pr.1) := by
  unfold parse_log_line
  cases hre : reMatch line with
  | none => simp
  | some pr =>
    obtain ⟨sv, payload⟩ := pr
    simp only [Option.map_some']
    split
    · split <;> simp
    · split <;> (try split) <;> simp

/-- A successful match has a nonempty service group. -/
theorem reMatch_sv_ne_empty (line sv payload : String)
    (h : reMatch line = some (sv, payload)) : sv ≠ "" := by
  simp only [reMatch] at h
  split at h
  · exact Option.noConfusion h
  · rename_i hne
    split at h
    · exact Option.noConfusion h
    · split at h
      · split at h
        · exact Option.noConfusion h
        · split at h
          · rename_i g hg
            injection h with h2
            have hsv : sv = String.mk (line.toList.takeWhile (fun c => !pyIsSpace c)) := by
              have := congrArg Prod.fst h2
              exact this.symm
            intro hemp
            rw [hemp] at hsv
            have : line.toList.takeWhile (fun c => !pyIsSpace c) = [] :=
              (congrArg String.data hsv).symm
            rw [this] at hne
            simp at hne
          · exact Option.noConfusion h
      · exact Option.noConfusion h

theorem mem_dropWhile (p : Char → Bool) (l : List Char) (c : Char)
    (hc : c ∈ l) (hp : p c = false) : c ∈ l.dropWhile p := by
  induction l with
  | nil => cases hc
  | cons a rest ih =>
    by_cases ha : p a = true
    · rw [List.dropWhile_cons, if_pos ha]
      rcases List.mem_cons.mp hc with heq | hmem
      · rw [heq] at hp
        rw [ha] at hp
        exact Bool.noConfusion hp
      · exact ih hmem
    · rw [List.dropWhile_cons, if_neg ha]
      exact hc

/-- A line containing a nonspace character does not strip to empty. -/
theorem pyStrip_ne_empty (line : String) (c : Char)
    (hc : c ∈ line.toList) (hns : pyIsSpace c = false) : pyStrip line ≠ "" := by
  intro h
  have h2 : ((line.toList.dropWhile pyIsSpace).reverse.dropWhile pyIsSpace).reverse
      = [] := congrArg String.data h
  have m1 : c ∈ line.toList.dropWhile pyIsSpace := mem_dropWhile _ _ _ hc hns
  have m2 : c ∈ (line.toList.dropWhile pyIsSpace).reverse := List.mem_reverse.mpr m1
  have m3 : c ∈ ((line.toList.dropWhile pyIsSpace).reverse).dropWhile pyIsSpace :=
    mem_dropWhile _ _ _ m2 hns
  have m4 : c ∈ ((line.toList.dropWhile pyIsSpace).reverse.dropWhile pyIsSpace).reverse :=
    List.mem_reverse.mpr m3
  rw [h2] at m4
  cases m4

/-! ## Service counters and folds -/

theorem svcTotal_incr (l : List (String × Nat)) (s : String) :
    svcTotal (incrService l s) = svcTotal l + 1 := by
  induction l with
  | nil => simp [incrService, svcTotal]
  | cons p rest ih =>
    obtain ⟨k, v⟩ := p
    by_cases hk : k = s
    · simp [incrService, hk, svcTotal]
      omega
    · simp [incrService, hk, svcTotal] at ih ⊢
      omega

theorem stepLine_services (a : Analysis) (line : String) (a' : Analysis)
    (h : stepLine a line = .ok a') :
    svcTotal a'.services = svcTotal a.services +
      (if (pyStrip line != "") && (reMatch line).isSome then 1 else 0) := by
  unfold stepLine at h
  split at h
  · rename_i hb
    injection h with h2
    rw [← h2]
    simp [hb]
  · rename_i hb
    obtain ⟨lv, ms, es, _, _, h3⟩ := stepParsed_ok_elim _ _ _ _ h
    subst h3
    rw [stepOutcome_services, parse_log_line_service]
    cases hre : reMatch line with
    | none => simp [hb]
    | some pr =>
      obtain ⟨sv, payload⟩ := pr
      have hsv := reMatch_sv_ne_empty _ _ _ hre
      simp [hb, hsv, svcTotal_incr]

theorem stepLine_status (a : Analysis) (line : String) (a' : Analysis)
    (h : stepLine a line = .ok a') : a'.service_status = a.service_status := by
  unfold stepLine at h
  split at h
  · injection h with h2
    rw [← h2]
  · obtain ⟨lv, ms, es, _, _, h3⟩ := stepParsed_ok_elim _ _ _ _ h
    subst h3
    exact stepOutcome_status _ _ _ _ _ _

theorem foldl_services (logs : List String) : ∀ (a0 a : Analysis),
    List.foldlM stepLine a0 logs = .ok a →
    svcTotal a.services = svcTotal a0.services +
      logs.countP (fun l => (pyStrip l != "") && (reMatch l).isSome) := by
  induction logs with
  | nil =>
    intro a0 a h
    simp only [List.foldlM_nil] at h
    have h2 : a0 = a := by simpa [pure, Except.pure] using h
    rw [← h2]
    simp
  | cons l ls ih =>
    intro a0 a h
    rw [List.foldlM_cons] at h
    cases hs : stepLine a0 l with
    | error msg =>
      rw [hs] at h
      simp [Bind.bind, Except.bind] at h
    | ok a1 =>
      rw [hs] at h
      have h' : List.foldlM stepLine a1 ls = .ok a := by
        simpa [Bind.bind, Except.bind] using h
      have hrec := ih a1 a h'
      have hstep := stepLine_services a0 l a1 hs
      rw [List.countP_cons]
      by_cases hp : (pyStrip l != "") && (reMatch l).isSome
      · simp [hp] at hstep ⊢
        omega
      · simp [hp] at hstep ⊢
        omega

theorem foldl_status (logs : List String) : ∀ (a0 a : Analysis),
    List.foldlM stepLine a0 logs = .ok a → a.service_status = a0.service_status := by
  induction logs with
  | nil =>
    intro a0 a h
    simp only [List.foldlM_nil] at h
    have h2 : a0 = a := by simpa [pure, Except.pure] using h
    rw [← h2]
  | cons l ls ih =>
    intro a0 a h
    rw [List.foldlM_cons] at h
    cases hs : stepLine a0 l with
    | error msg =>
      rw [hs] at h
      simp [Bind.bind, Except.bind] at h
    | ok a1 =>
      rw [hs] at h
      have h' : List.foldlM stepLine a1 ls = .ok a := by
        simpa [Bind.bind, Except.bind] using h
      rw [ih a1 a h', stepLine_status a0 l a1 hs]

/-! ## Claim theorems -/

/-- C6: for every input sequence on which `analyze_logs` returns an
`Analysis`, the sum of all per-service counters equals the number of
non-blank lines matched by the service-delimiter regex; lines that fail
the match (whose parsed service is unset) never increment any counter. -/
theorem C6_service_count_sum (logs : List String) (a : Analysis)
    (h : analyze_logs logs = .ok a) :
    svcTotal a.services =
      logs.countP (fun l => (pyStrip l != "") && (reMatch l).isSome) := by
  have hmain := foldl_services logs initAnalysis a h
  simpa [initAnalysis, svcTotal] using hmain

/-- C9: the `service_status` map of any `Analysis` returned by
`analyze_logs` is empty — it is initialized empty and no statement of the
classification pass writes to it. -/
theorem C9_service_status_empty (logs : List String) (a : Analysis)
    (h : analyze_logs logs = .ok a) : a.service_status = [] := by
  rw [foldl_status logs initAnalysis a h]
  rfl

/-- C7: `analyze_logs` is deterministic — it is a pure function of the
input sequence, so two runs on equal inputs produce identical `Analysis`
aggregates (no randomness, time, or external state enters the
classification). -/
theorem C7_deterministic (l1 l2 : List String) (h : l1 = l2) :
    analyze_logs l1 = analyze_logs l2 := by
  rw [h]

/-- C7 witness: two runs on the same concrete input coincide. -/
theorem C7_witness : analyze_logs ["a | b"] = analyze_logs ["a | b"] :=
  C7_deterministic ["a | b"] ["a | b"] rfl

/-- C4 counterexample: the claim says a connection-error raw line
containing `8080` always yields the API-gateway label, but the outer
guard of the lookup does not test `8080`: a raw line containing `8080`
and none of `172.21.0.` / `7051` / `5432` gets no label at all. -/
theorem C4_counterexample : pyIn "8080" "8080" = true ∧ connLabel "8080" = none := by
  constructor
  · rfl
  · rfl

/-- C4 (amended): the lookup fires only when the raw line contains
`172.21.0.`, `7051` or `5432`; then `7051` yields the Fabric-peer label,
else `5432` the PostgreSQL label, else `8080` the API-gateway label
(reachable only via `172.21.0.`); a raw line with none of the three
guard substrings — even one containing `8080` — yields no label. -/
theorem C4_label_amended (raw : String) :
    (pyIn "7051" raw = true → connLabel raw = some .fabricPeer) ∧
    (pyIn "7051" raw = false → pyIn "5432" raw = true →
      connLabel raw = some .postgres) ∧
    (pyIn "7051" raw = false → pyIn "5432" raw = false →
      pyIn "172.21.0." raw = true → pyIn "8080" raw = true →
      connLabel raw = some .apiGateway) ∧
    (pyIn "172.21.0." raw = false → pyIn "7051" raw = false →
      pyIn "5432" raw = false → connLabel raw = none) := by
  refine ⟨?_, ?_, ?_, ?_⟩
  · intro h1
    simp [connLabel, h1]
  · intro h1 h2
    simp [connLabel, h1, h2]
  · intro h1 h2 h3 h4
    simp [connLabel, h1, h2, h3, h4]
  · intro h1 h2 h3
    simp [connLabel, h1, h2, h3]

/-- C4 witness: a raw line with the subnet prefix and `8080` but neither
`7051` nor `5432` gets the API-gateway label. -/
theorem C4_witness : connLabel "172.21.0.15:8080" = some .apiGateway :=
  (C4_label_amended "172.21.0.15:8080").2.2.1 rfl rfl rfl rfl

/-- C2: one loop iteration of `analyze_logs` appends the record to at
most one of the four level buckets (exactly one when the normalized
level is recognized, none otherwise), while each heuristic bucket
(connection errors, startup sequence, health checks) independently
either stays unchanged or gains one record. -/
theorem C2_level_buckets (a : Analysis) (line : String) (a' : Analysis)
    (h : stepLine a line = .ok a') :
    ((a'.errors = a.errors ∧ a'.warnings = a.warnings ∧ a'.fatal = a.fatal ∧
        a'.info = a.info) ∨
     (∃ r, a'.errors = a.errors ++ [r] ∧ a'.warnings = a.warnings ∧
        a'.fatal = a.fatal ∧ a'.info = a.info) ∨
     (∃ r, a'.warnings = a.warnings ++ [r] ∧ a'.errors = a.errors ∧
        a'.fatal = a.fatal ∧ a'.info = a.info) ∨
     (∃ r, a'.fatal = a.fatal ++ [r] ∧ a'.errors = a.errors ∧
        a'.warnings = a.warnings ∧ a'.info = a.info) ∨
     (∃ r, a'.info = a.info ++ [r] ∧ a'.errors = a.errors ∧
        a'.warnings = a.warnings ∧ a'.fatal = a.fatal)) ∧
    (a'.connection_errors = a.connection_errors ∨
      ∃ r, a'.connection_errors = a.connection_errors ++ [r]) ∧
    (a'.startup_sequence = a.startup_sequence ∨
      ∃ r, a'.startup_sequence = a.startup_sequence ++ [r]) ∧
    (a'.health_checks = a.health_checks ∨
      ∃ r, a'.health_checks = a.health_checks ++ [r]) := by
  unfold stepLine at h
  split at h
  · injection h with h2
    rw [← h2]
    exact ⟨Or.inl ⟨rfl, rfl, rfl, rfl⟩, Or.inl rfl, Or.inl rfl, Or.inl rfl⟩
  · obtain ⟨lv, ms, es, _, _, h3⟩ := stepParsed_ok_elim _ _ _ _ h
    subst h3
    refine ⟨?_, ?_, ?_, ?_⟩
    · rw [stepOutcome_errors, stepOutcome_warnings, stepOutcome_fatal, stepOutcome_info]
      by_cases h1 : lv = "error"
      · exact Or.inr (Or.inl ⟨_, by rw [if_pos h1], by simp [h1], by simp [h1],
          by simp [h1]⟩)
      · by_cases h2 : lv = "warn"
        · exact Or.inr (Or.inr (Or.inl ⟨_, by rw [if_neg h1, if_pos h2],
            by simp [h1, h2], by simp [h1, h2], by simp [h1, h2]⟩))
        · by_cases h3 : lv = "fatal"
          · exact Or.inr (Or.inr (Or.inr (Or.inl ⟨_,
              by rw [if_neg h1, if_neg h2, if_pos h3], by simp [h1, h2, h3],
              by simp [h1, h2, h3], by simp [h1, h2, h3]⟩)))
          · by_cases h4 : lv = "info"
            · exact Or.inr (Or.inr (Or.inr (Or.inr ⟨_,
                by rw [if_neg h1, if_neg h2, if_neg h3, if_pos h4],
                by simp [h1, h2, h3, h4], by simp [h1, h2, h3, h4],
                by simp [h1, h2, h3, h4]⟩)))
            · exact Or.inl ⟨by simp [h1, h2, h3, h4], by simp [h1, h2, h3, h4],
                by simp [h1, h2, h3, h4], by simp [h1, h2, h3, h4]⟩
    · rw [stepOutcome_conn]
      by_cases hc : connCond (pyLowerStr (ms ++ " " ++ es))
      · exact Or.inr ⟨_, by rw [if_pos hc]⟩
      · exact Or.inl (by simp [hc])
    · rw [stepOutcome_startup]
      by_cases hc : startupCond ms
      · exact Or.inr ⟨_, by rw [if_pos hc]⟩
      · exact Or.inl (by simp [hc])
    · rw [stepOutcome_health]
      by_cases hc : healthCond ms
      · exact Or.inr ⟨_, by rw [if_pos hc]⟩
      · exact Or.inl (by simp [hc])

/-- C2 witness: the concrete line `a | b` enters only the info bucket. -/
theorem C2_witness :
    ((infoA.errors = initAnalysis.errors ∧ infoA.warnings = initAnalysis.warnings ∧
        infoA.fatal = initAnalysis.fatal ∧ infoA.info = initAnalysis.info) ∨
     (∃ r, infoA.errors = initAnalysis.errors ++ [r] ∧
        infoA.warnings = initAnalysis.warnings ∧ infoA.fatal = initAnalysis.fatal ∧
        infoA.info = initAnalysis.info) ∨
     (∃ r, infoA.warnings = initAnalysis.warnings ++ [r] ∧
        infoA.errors = initAnalysis.errors ∧ infoA.fatal = initAnalysis.fatal ∧
        infoA.info = initAnalysis.info) ∨
     (∃ r, infoA.fatal = initAnalysis.fatal ++ [r] ∧
        infoA.errors = initAnalysis.errors ∧ infoA.warnings = initAnalysis.warnings ∧
        infoA.info = initAnalysis.info) ∨
     (∃ r, infoA.info = initAnalysis.info ++ [r] ∧
        infoA.errors = initAnalysis.errors ∧ infoA.warnings = initAnalysis.warnings ∧
        infoA.fatal = initAnalysis.fatal)) ∧
    (infoA.connection_errors = initAnalysis.connection_errors ∨
      ∃ r, infoA.connection_errors = initAnalysis.connection_errors ++ [r]) ∧
    (infoA.startup_sequence = initAnalysis.startup_sequence ∨
      ∃ r, infoA.startup_sequence = initAnalysis.startup_sequence ++ [r]) ∧
    (infoA.health_checks = initAnalysis.health_checks ∨
      ∃ r, infoA.health_checks = initAnalysis.health_checks ++ [r]) :=
  C2_level_buckets initAnalysis "a | b" infoA (by rfl)

/-- C6 witness: on the single matched line `a | b` the counters sum to 1. -/
theorem C6_witness :
    svcTotal infoA.services =
      List.countP (fun l => (pyStrip l != "") && (reMatch l).isSome) ["a | b"] :=
  C6_service_count_sum ["a | b"] infoA (by rfl)

/-- C9 witness: the empty run returns an empty `service_status`. -/
theorem C9_witness : initAnalysis.service_status = [] :=
  C9_service_status_empty [] initAnalysis (by rfl)

/-- C1 counterexample: the claim says any non-blank line containing
"connection refused" is appended to `connection_errors`, but the test is
on the parsed message/error text, not the raw line: the line
`connection refused` itself fails the delimiter match, parses with empty
message and error, and is not appended. -/
theorem C1_counterexample :
    pyIn "connection refused" "connection refused" = true ∧
    pyStrip "connection refused" ≠ "" ∧
    (analyze_logs ["connection refused"]).map (fun a => a.connection_errors.length)
      = .ok 0 := by
  refine ⟨rfl, by decide, by rfl⟩

/-- C1 (amended): a non-blank line is appended to `connection_errors`
exactly when the lowercased concatenation of its parsed message and
error fields contains one of the three connection substrings; an
occurrence of "connection refused" elsewhere in the raw line (outside
the parsed message and error) does not append. -/
theorem C1_conn_amended (a : Analysis) (line : String) (a' : Analysis) (ms es : String)
    (h : stepLine a line = .ok a')
    (hnb : pyStrip line ≠ "")
    (hm : pyOr (parse_log_line line).message (.str "") = .str ms)
    (he : pyOr (parse_log_line line).error (.str "") = .str es) :
    (connCond (pyLowerStr (ms ++ " " ++ es)) = true →
      a'.connection_errors = a.connection_errors ++
        [{ service := (parse_log_line line).service, message := .str ms,
           error := .str es, raw := (parse_log_line line).raw }]) ∧
    (connCond (pyLowerStr (ms ++ " " ++ es)) = false →
      a'.connection_errors = a.connection_errors) := by
  unfold stepLine at h
  rw [if_neg hnb] at h
  obtain ⟨lv, ms', es', h1, h2, h3⟩ := stepParsed_ok_elim _ _ _ _ h
  rw [hm, he] at h2
  simp only [concatStr] at h2
  injection h2 with h2
  have hms : ms = ms' := congrArg Prod.fst h2
  have hes : es = es' := congrArg Prod.snd h2
  subst h3
  rw [stepOutcome_conn, hm, he, ← hms, ← hes]
  constructor
  · intro hc
    rw [if_pos hc]
  · intro hc
    simp [hc]

/-- C1 witness: a line whose parsed message contains `connect() failed`
is appended to the connection bucket. -/
theorem C1_witness :
    connA.connection_errors = initAnalysis.connection_errors ++
      [{ service := (parse_log_line "n | connect() failed").service,
         message := .str "connect() failed", error := .str "",
         raw := (parse_log_line "n | connect() failed").raw }] :=
  (C1_conn_amended initAnalysis "n | connect() failed" connA "connect() failed" ""
    (by rfl) (by decide) (by rfl) (by rfl)).1 (by rfl)

/-- C5: `parse_log_line` is a total function (every Python failure path
is caught), and on a matched line whose payload starts with a brace but
is not valid JSON, the whole payload becomes the message and the level
stays unset. -/
theorem C5_parse_fallback (line sv payload : String)
    (hre : reMatch line = some (sv, payload))
    (hlb : startsLbrace payload = true)
    (hj : json_loads payload = none) :
    parse_log_line line =
      { service := some sv, timestamp := none, level := none,
        message := some (.str payload), error := none, caller := none,
        raw := pyStrip line } := by
  simp [parse_log_line, hre, hlb, hj]

/-- C5 witness: the payload `\x7boops` is brace-initial, fails
`json.loads`, and falls back to a message-only record. -/
theorem C5_witness :
    reMatch "svc | \x7boops" = some ("svc", "\x7boops") ∧
    startsLbrace "\x7boops" = true ∧
    json_loads "\x7boops" = none ∧
    parse_log_line "svc | \x7boops" =
      { service := some "svc", timestamp := none, level := none,
        message := some (.str "\x7boops"), error := none, caller := none,
        raw := pyStrip "svc | \x7boops" } :=
  ⟨by rfl, by rfl, by rfl, C5_parse_fallback _ _ _ (by rfl) (by rfl) (by rfl)⟩

/-- C3: a line `sv | \x7b"level":"error","msg":"m","error":"e"\x7d` (service
token of nonspace characters, single-space delimiters, plain contents)
is classified into the errors bucket with exactly one new entry carrying
service `sv`, message `m` and error `e`. -/
theorem C3_error_line (a : Analysis) (sv m e : String)
    (hs : sv ≠ "") (hsp : ∀ c ∈ sv.toList, pyIsSpace c = false)
    (hm : ∀ c ∈ m.toList, c ≠ '"' ∧ c ≠ '\\' ∧ 0x20 ≤ c.toNat)
    (he : ∀ c ∈ e.toList, c ≠ '"' ∧ c ≠ '\\' ∧ 0x20 ≤ c.toNat) :
    ∃ a', stepLine a (sv ++ " | " ++ payloadStr m e) = .ok a' ∧
      a'.errors = a.errors ++
        [{ service := some sv, message := .str m, error := .str e,
           caller := .str "", raw := pyStrip (sv ++ " | " ++ payloadStr m e) }] := by
  have hA0 : ("\x7b\"level\":\"error\",\"msg\":\"").toList
      = '\x7b' :: ("\"level\":\"error\",\"msg\":\"").toList := rfl
  have hcons : ∃ t, (payloadStr m e).toList = '\x7b' :: t := by
    rw [payloadStr, toList_app, toList_app, toList_app, toList_app, hA0,
      List.cons_append, List.cons_append, List.cons_append, List.cons_append]
    exact ⟨_, rfl⟩
  obtain ⟨ptl, hp⟩ := hcons
  have hnl : noNL ((payloadStr m e).toList) = true := by
    rw [payloadStr, toList_app, toList_app, toList_app, toList_app, noNL]
    simp only [List.all_append, Bool.and_eq_true]
    refine ⟨⟨⟨⟨by decide, ?_⟩, by decide⟩, ?_⟩, by decide⟩
    · rw [List.all_eq_true]
      intro c mc
      have h32 := (hm c mc).2.2
      simp only [Bool.not_eq_true', beq_eq_false_iff_ne, ne_eq]
      intro hEq
      subst hEq
      exact absurd h32 (by decide)
    · rw [List.all_eq_true]
      intro c mc
      have h32 := (he c mc).2.2
      simp only [Bool.not_eq_true', beq_eq_false_iff_ne, ne_eq]
      intro hEq
      subst hEq
      exact absurd h32 (by decide)
  have hre : reMatch (sv ++ " | " ++ payloadStr m e) = some (sv, payloadStr m e) :=
    reMatch_concat sv _ hs hsp '\x7b' ptl hp (by decide) hnl
  have hlb : startsLbrace (payloadStr m e) = true := by
    rw [startsLbrace, hp]
    rfl
  have hj := json_loads_triple m e hm he
  have hp2 := parse_structured (sv ++ " | " ++ payloadStr m e) sv (payloadStr m e) _
    hre hlb hj
  have hlower : pyLowerVal
      (pyOr (parse_log_line (sv ++ " | " ++ payloadStr m e)).level (.str "info"))
      = .ok "error" := by
    rw [hp2]
    rfl
  have hmsgV : pyOr (parse_log_line (sv ++ " | " ++ payloadStr m e)).message (.str "")
      = .str m := by
    rw [hp2]
    by_cases hm0 : m = ""
    · subst hm0
      rfl
    · simp [pyOr, pyFalsy, jget, hm0]
  have herrV : pyOr (parse_log_line (sv ++ " | " ++ payloadStr m e)).error (.str "")
      = .str e := by
    rw [hp2]
    by_cases he0 : e = ""
    · subst he0
      rfl
    · simp [pyOr, pyFalsy, jget, he0]
  have hok := stepParsed_ok_intro a (sv ++ " | " ++ payloadStr m e)
    (parse_log_line (sv ++ " | " ++ payloadStr m e)) "error" m e hlower
    (by rw [hmsgV, herrV]; rfl)
  obtain ⟨c0, ct, hsv⟩ := List.exists_cons_of_ne_nil (toList_ne_nil hs)
  have hc0 : c0 ∈ sv.toList := by
    rw [hsv]
    exact List.mem_cons_self _ _
  have hc0mem : c0 ∈ (sv ++ " | " ++ payloadStr m e).toList := by
    rw [toList_app, toList_app]
    exact List.mem_append_left _ (List.mem_append_left _ hc0)
  have hnb := pyStrip_ne_empty _ c0 hc0mem (hsp c0 hc0)
  refine ⟨stepOutcome a (sv ++ " | " ++ payloadStr m e)
    (parse_log_line (sv ++ " | " ++ payloadStr m e)) "error" m e, ?_, ?_⟩
  · unfold stepLine
    rw [if_neg hnb]
    exact hok
  · rw [stepOutcome_errors, if_pos rfl, hmsgV, herrV, hp2]
    simp [jget]

/-- C3 witness: the line `s | \x7b"level":"error","msg":"boom","error":"x"\x7d`. -/
theorem C3_witness :
    ∃ a', stepLine initAnalysis ("s" ++ " | " ++ payloadStr "boom" "x") = .ok a' ∧
      a'.errors = initAnalysis.errors ++
        [{ service := some "s", message := .str "boom", error := .str "x",
           caller := .str "", raw := pyStrip ("s" ++ " | " ++ payloadStr "boom" "x") }] :=
  C3_error_line initAnalysis "s" "boom" "x" (by decide) (by decide) (by decide)
    (by decide)

/-- Classification does not depend on the raw line except through the
stored `raw` fields and the health-check status probe: two parsed
records that agree on everything but `raw`, classified against possibly
different lines, either raise the same error or produce aggregates that
agree on services, status, warnings, info, startup, and on every bucket
entry up to the raw-derived components. -/
theorem stepParsed_raw_insensitive (a : Analysis) (l1 l2 : String)
    (sv : Option String) (ts lvl msg err cal : Option Json) (r1 r2 : String) :
    (∃ s, stepParsed a l1 ⟨sv, ts, lvl, msg, err, cal, r1⟩ = .error s ∧
       stepParsed a l2 ⟨sv, ts, lvl, msg, err, cal, r2⟩ = .error s) ∨
    (∃ b1 b2, stepParsed a l1 ⟨sv, ts, lvl, msg, err, cal, r1⟩ = .ok b1 ∧
       stepParsed a l2 ⟨sv, ts, lvl, msg, err, cal, r2⟩ = .ok b2 ∧
       b1.services = b2.services ∧ b1.service_status = b2.service_status ∧
       b1.warnings = b2.warnings ∧ b1.info = b2.info ∧
       b1.startup_sequence = b2.startup_sequence ∧
       b1.errors.map ErrRec.core = b2.errors.map ErrRec.core ∧
       b1.fatal.map FatalRec.core = b2.fatal.map FatalRec.core ∧
       b1.connection_errors.map ConnRec.core = b2.connection_errors.map ConnRec.core ∧
       b1.health_checks.map HealthRec.core = b2.health_checks.map HealthRec.core) := by
  cases hlv : pyLowerVal (pyOr lvl (.str "info")) with
  | error s =>
    left
    refine ⟨s, ?_, ?_⟩ <;> simp [stepParsed, hlv]
  | ok lv =>
    cases hcc : concatStr (pyOr msg (.str "")) (pyOr err (.str "")) with
    | error s =>
      left
      refine ⟨s, ?_, ?_⟩ <;> simp [stepParsed, hlv, hcc]
    | ok pr =>
      obtain ⟨ms, es⟩ := pr
      right
      refine ⟨_, _, stepParsed_ok_intro _ _ _ lv ms es hlv hcc,
        stepParsed_ok_intro _ _ _ lv ms es hlv hcc, ?_, ?_, ?_, ?_, ?_, ?_, ?_, ?_, ?_⟩
      · rw [stepOutcome_services, stepOutcome_services]
      · rw [stepOutcome_status, stepOutcome_status]
      · rw [stepOutcome_warnings, stepOutcome_warnings]
      · rw [stepOutcome_info, stepOutcome_info]
      · rw [stepOutcome_startup, stepOutcome_startup]
      · rw [stepOutcome_errors, stepOutcome_errors]
        by_cases h1 : lv = "error" <;> simp [h1, ErrRec.core]
      · rw [stepOutcome_fatal, stepOutcome_fatal]
        by_cases h1 : lv = "error" <;> by_cases h2 : lv = "warn" <;>
          by_cases h3 : lv = "fatal" <;> simp [h1, h2, h3, FatalRec.core]
      · rw [stepOutcome_conn, stepOutcome_conn]
        by_cases h1 : connCond (pyLowerStr (ms ++ " " ++ es)) <;>
          simp [h1, ConnRec.core]
      · rw [stepOutcome_health, stepOutcome_health]
        by_cases h1 : healthCond ms <;> simp [h1, HealthRec.core]

/-- C8 (amended): two lines with the same service token and structured
payloads that agree on `level`, `msg`, `ts`, `error` and `caller` are
classified identically except for raw-derived data: service counters,
bucket membership and order, and all stored fields agree, while the
stored raw line and the health-check status flag (computed from the raw
line's `status":200` probe) may differ.  Other payload fields are
otherwise ignored. -/
theorem C8_ignored_fields (a : Analysis) (sv p1 p2 : String)
    (d1 d2 : List (String × Json))
    (hs : sv ≠ "") (hsp : ∀ c ∈ sv.toList, pyIsSpace c = false)
    (h1b : startsLbrace p1 = true) (h2b : startsLbrace p2 = true)
    (h1n : noNL p1.toList = true) (h2n : noNL p2.toList = true)
    (hj1 : json_loads p1 = some (.obj d1)) (hj2 : json_loads p2 = some (.obj d2))
    (hl : jget d1 "level" = jget d2 "level") (hmg : jget d1 "msg" = jget d2 "msg")
    (ht : jget d1 "ts" = jget d2 "ts") (herr : jget d1 "error" = jget d2 "error")
    (hc : jget d1 "caller" = jget d2 "caller") :
    (∃ s, stepLine a (sv ++ " | " ++ p1) = .error s ∧
       stepLine a (sv ++ " | " ++ p2) = .error s) ∨
    (∃ b1 b2, stepLine a (sv ++ " | " ++ p1) = .ok b1 ∧
       stepLine a (sv ++ " | " ++ p2) = .ok b2 ∧
       b1.services = b2.services ∧ b1.service_status = b2.service_status ∧
       b1.warnings = b2.warnings ∧ b1.info = b2.info ∧
       b1.startup_sequence = b2.startup_sequence ∧
       b1.errors.map ErrRec.core = b2.errors.map ErrRec.core ∧
       b1.fatal.map FatalRec.core = b2.fatal.map FatalRec.core ∧
       b1.connection_errors.map ConnRec.core = b2.connection_errors.map ConnRec.core ∧
       b1.health_checks.map HealthRec.core = b2.health_checks.map HealthRec.core) := by
  obtain ⟨t1, hp1⟩ : ∃ t, p1.toList = '\x7b' :: t := by
    cases hply : p1.toList with
    | nil =>
      rw [startsLbrace, hply] at h1b
      simp at h1b
    | cons c t =>
      rw [startsLbrace, hply] at h1b
      simp at h1b
      exact ⟨t, by rw [h1b]⟩
  obtain ⟨t2, hp2⟩ : ∃ t, p2.toList = '\x7b' :: t := by
    cases hply : p2.toList with
    | nil =>
      rw [startsLbrace, hply] at h2b
      simp at h2b
    | cons c t =>
      rw [startsLbrace, hply] at h2b
      simp at h2b
      exact ⟨t, by rw [h2b]⟩
  have hre1 := reMatch_concat sv p1 hs hsp '\x7b' t1 hp1 (by decide) h1n
  have hre2 := reMatch_concat sv p2 hs hsp '\x7b' t2 hp2 (by decide) h2n
  have hpr1 := parse_structured (sv ++ " | " ++ p1) sv p1 d1 hre1 h1b hj1
  have hpr2 := parse_structured (sv ++ " | " ++ p2) sv p2 d2 hre2 h2b hj2
  obtain ⟨c0, ct, hsv⟩ := List.exists_cons_of_ne_nil (toList_ne_nil hs)
  have hc0 : c0 ∈ sv.toList := by
    rw [hsv]
    exact List.mem_cons_self _ _
  have hnb1 : pyStrip (sv ++ " | " ++ p1) ≠ "" := by
    refine pyStrip_ne_empty _ c0 ?_ (hsp c0 hc0)
    rw [toList_app, toList_app]
    exact List.mem_append_left _ (List.mem_append_left _ hc0)
  have hnb2 : pyStrip (sv ++ " | " ++ p2) ≠ "" := by
    refine pyStrip_ne_empty _ c0 ?_ (hsp c0 hc0)
    rw [toList_app, toList_app]
    exact List.mem_append_left _ (List.mem_append_left _ hc0)
  have hsl1 : stepLine a (sv ++ " | " ++ p1)
      = stepParsed a (sv ++ " | " ++ p1) (parse_log_line (sv ++ " | " ++ p1)) := by
    unfold stepLine
    rw [if_neg hnb1]
  have hsl2 : stepLine a (sv ++ " | " ++ p2)
      = stepParsed a (sv ++ " | " ++ p2) (parse_log_line (sv ++ " | " ++ p2)) := by
    unfold stepLine
    rw [if_neg hnb2]
  rw [hsl1, hsl2, hpr1, hpr2, ← hl, ← hmg, ← ht, ← herr, ← hc]
  exact stepParsed_raw_insensitive a (sv ++ " | " ++ p1) (sv ++ " | " ++ p2)
    (some sv) (some ((jget d1 "ts").getD (.num "0")))
    (some ((jget d1 "level").getD (.str "info")))
    (some ((jget d1 "msg").getD (.str "")))
    (some ((jget d1 "error").getD (.str "")))
    (jget d1 "caller") (pyStrip (sv ++ " | " ++ p1)) (pyStrip (sv ++ " | " ++ p2))

/-- C8 counterexample: two structured lines agreeing on all five consumed
fields (`level`, `msg`, `ts`, `error`, `caller`) and differing only in the
ignored `status` field are classified differently: the health-check
status flag probes the raw line for `status":200`, so the classification
is not the same. -/
theorem C8_counterexample :
    json_loads "\x7b\"msg\":\"health\",\"status\":200\x7d"
      = some (.obj [("msg", .str "health"), ("status", .num "200")]) ∧
    json_loads "\x7b\"msg\":\"health\",\"status\":500\x7d"
      = some (.obj [("msg", .str "health"), ("status", .num "500")]) ∧
    jget [("msg", Json.str "health"), ("status", Json.num "200")] "level"
      = jget [("msg", Json.str "health"), ("status", Json.num "500")] "level" ∧
    jget [("msg", Json.str "health"), ("status", Json.num "200")] "msg"
      = jget [("msg", Json.str "health"), ("status", Json.num "500")] "msg" ∧
    jget [("msg", Json.str "health"), ("status", Json.num "200")] "ts"
      = jget [("msg", Json.str "health"), ("status", Json.num "500")] "ts" ∧
    jget [("msg", Json.str "health"), ("status", Json.num "200")] "error"
      = jget [("msg", Json.str "health"), ("status", Json.num "500")] "error" ∧
    jget [("msg", Json.str "health"), ("status", Json.num "200")] "caller"
      = jget [("msg", Json.str "health"), ("status", Json.num "500")] "caller" ∧
    (stepLine initAnalysis "s | \x7b\"msg\":\"health\",\"status\":200\x7d").map
      (fun a => a.health_checks.map HealthRec.status) = .ok ["200"] ∧
    (stepLine initAnalysis "s | \x7b\"msg\":\"health\",\"status\":500\x7d").map
      (fun a => a.health_checks.map HealthRec.status) = .ok ["unknown"] ∧
    stepLine initAnalysis "s | \x7b\"msg\":\"health\",\"status\":200\x7d"
      ≠ stepLine initAnalysis "s | \x7b\"msg\":\"health\",\"status\":500\x7d" := by
  refine ⟨by rfl, by rfl, rfl, rfl, rfl, rfl, rfl, by rfl, by rfl, ?_⟩
  intro heq
  have h200 : (stepLine initAnalysis "s | \x7b\"msg\":\"health\",\"status\":200\x7d").map
      (fun a => a.health_checks.map HealthRec.status) = .ok ["200"] := by rfl
  have h500 : (stepLine initAnalysis "s | \x7b\"msg\":\"health\",\"status\":500\x7d").map
      (fun a => a.health_checks.map HealthRec.status) = .ok ["unknown"] := by rfl
  rw [heq, h500] at h200
  injection h200 with h3
  exact absurd h3 (by decide)

/-- C8 witness: the amended theorem applied to two identical structured
lines. -/
theorem C8_witness :
    (∃ s, stepLine initAnalysis ("s" ++ " | " ++ "\x7b\"a\":1\x7d") = .error s ∧
       stepLine initAnalysis ("s" ++ " | " ++ "\x7b\"a\":1\x7d") = .error s) ∨
    (∃ b1 b2, stepLine initAnalysis ("s" ++ " | " ++ "\x7b\"a\":1\x7d") = .ok b1 ∧
       stepLine initAnalysis ("s" ++ " | " ++ "\x7b\"a\":1\x7d") = .ok b2 ∧
       b1.services = b2.services ∧ b1.service_status = b2.service_status ∧
       b1.warnings = b2.warnings ∧ b1.info = b2.info ∧
       b1.startup_sequence = b2.startup_sequence ∧
       b1.errors.map ErrRec.core = b2.errors.map ErrRec.core ∧
       b1.fatal.map FatalRec.core = b2.fatal.map FatalRec.core ∧
       b1.connection_errors.map ConnRec.core = b2.connection_errors.map ConnRec.core ∧
       b1.health_checks.map HealthRec.core = b2.health_checks.map HealthRec.core) :=
  C8_ignored_fields initAnalysis "s" "\x7b\"a\":1\x7d" "\x7b\"a\":1\x7d"
    [("a", .num "1")] [("a", .num "1")] (by decide) (by decide) (by rfl) (by rfl)
    (by decide) (by decide) (by rfl) (by rfl) rfl rfl rfl rfl rfl

/-! ## Seed generator claims -/

theorem pyChoice_mem (l : List String) (d : Nat) (h : l ≠ []) : pyChoice l d ∈ l := by
  unfold pyChoice
  have hlen : 0 < l.length := List.length_pos.mpr h
  have hlt : d % l.length < l.length := Nat.mod_lt _ hlen
  rw [List.getD_eq_getElem l "" hlt]
  exact List.getElem_mem hlt

/-- C10: under every outcome of the random sources, the generator emits
exactly 28 INSERT rows into `transactions` — 5 CreateBatch, 10
CreatePackage, 8 UpdatePackage, 5 TransferPackage — each row VALID on
channel `ibnchannel` with chaincode `teatrace`, the CreateBatch rows
carry exactly the five generated batch ids, and every CreatePackage row
references one of those five batch ids. -/
theorem C10_seed_shape (g : SeedRand) :
    (sql_statements g).length = 28 ∧
    ((sql_statements g).filter (fun s => s.functionName == "CreateBatch")).length = 5 ∧
    ((sql_statements g).filter (fun s => s.functionName == "CreatePackage")).length = 10 ∧
    ((sql_statements g).filter (fun s => s.functionName == "UpdatePackage")).length = 8 ∧
    ((sql_statements g).filter (fun s => s.functionName == "TransferPackage")).length = 5 ∧
    (∀ s ∈ sql_statements g, s.tableName = "transactions" ∧ s.status = "VALID" ∧
      s.channelName = "ibnchannel" ∧ s.chaincodeName = "teatrace") ∧
    (batchIds g).length = 5 ∧
    ((sql_statements g).filter (fun s => s.functionName == "CreateBatch")).map
      (fun s => s.args.getD 0 "") = batchIds g ∧
    (∀ s ∈ sql_statements g, s.functionName = "CreatePackage" →
      s.args.getD 1 "" ∈ batchIds g) := by
  have hmemB : ∀ s ∈ createBatchStmts g, ∃ i, s.functionName = "CreateBatch" ∧
      s.args = ["BATCH_" ++ g.entHex i, "Tea Batch " ++ toString (i + 1),
                "Organic Green Tea", "1000kg"] ∧
      s.tableName = "transactions" ∧ s.status = "VALID" ∧
      s.channelName = "ibnchannel" ∧ s.chaincodeName = "teatrace" := by
    intro s hs
    simp only [createBatchStmts, List.mem_map] at hs
    obtain ⟨i, _, rfl⟩ := hs
    exact ⟨i, rfl, rfl, rfl, rfl, rfl, rfl⟩
  have hmemP : ∀ s ∈ createPackageStmts g, ∃ i, s.functionName = "CreatePackage" ∧
      s.args = ["PKG_" ++ g.entHex (5 + i), pyChoice (batchIds g) (g.choiceDraw i),
                "Premium Tea Package", "500g"] ∧
      s.tableName = "transactions" ∧ s.status = "VALID" ∧
      s.channelName = "ibnchannel" ∧ s.chaincodeName = "teatrace" := by
    intro s hs
    simp only [createPackageStmts, List.mem_map] at hs
    obtain ⟨i, _, rfl⟩ := hs
    exact ⟨i, rfl, rfl, rfl, rfl, rfl, rfl⟩
  have hmemU : ∀ s ∈ updatePackageStmts g, s.functionName = "UpdatePackage" ∧
      s.tableName = "transactions" ∧ s.status = "VALID" ∧
      s.channelName = "ibnchannel" ∧ s.chaincodeName = "teatrace" := by
    intro s hs
    simp only [updatePackageStmts, List.mem_map] at hs
    obtain ⟨i, _, rfl⟩ := hs
    exact ⟨rfl, rfl, rfl, rfl, rfl⟩
  have hmemT : ∀ s ∈ transferPackageStmts g, s.functionName = "TransferPackage" ∧
      s.tableName = "transactions" ∧ s.status = "VALID" ∧
      s.channelName = "ibnchannel" ∧ s.chaincodeName = "teatrace" := by
    intro s hs
    simp only [transferPackageStmts, List.mem_map] at hs
    obtain ⟨i, _, rfl⟩ := hs
    exact ⟨rfl, rfl, rfl, rfl, rfl⟩
  have hfB : (createBatchStmts g).filter (fun s => s.functionName == "CreateBatch")
      = createBatchStmts g := by
    rw [List.filter_eq_self]
    intro s hs
    obtain ⟨i, h1, _⟩ := hmemB s hs
    simp [h1]
  have hfBP : (createPackageStmts g).filter (fun s => s.functionName == "CreateBatch")
      = [] := by
    rw [List.filter_eq_nil_iff]
    intro s hs
    obtain ⟨i, h1, _⟩ := hmemP s hs
    simp [h1]
  have hfBU : (updatePackageStmts g).filter (fun s => s.functionName == "CreateBatch")
      = [] := by
    rw [List.filter_eq_nil_iff]
    intro s hs
    simp [(hmemU s hs).1]
  have hfBT : (transferPackageStmts g).filter (fun s => s.functionName == "CreateBatch")
      = [] := by
    rw [List.filter_eq_nil_iff]
    intro s hs
    simp [(hmemT s hs).1]
  have hfPB : (createBatchStmts g).filter (fun s => s.functionName == "CreatePackage")
      = [] := by
    rw [List.filter_eq_nil_iff]
    intro s hs
    obtain ⟨i, h1, _⟩ := hmemB s hs
    simp [h1]
  have hfP : (createPackageStmts g).filter (fun s => s.functionName == "CreatePackage")
      = createPackageStmts g := by
    rw [List.filter_eq_self]
    intro s hs
    obtain ⟨i, h1, _⟩ := hmemP s hs
    simp [h1]
  have hfPU : (updatePackageStmts g).filter (fun s => s.functionName == "CreatePackage")
      = [] := by
    rw [List.filter_eq_nil_iff]
    intro s hs
    simp [(hmemU s hs).1]
  have hfPT : (transferPackageStmts g).filter (fun s => s.functionName == "CreatePackage")
      = [] := by
    rw [List.filter_eq_nil_iff]
    intro s hs
    simp [(hmemT s hs).1]
  have hfUB : (createBatchStmts g).filter (fun s => s.functionName == "UpdatePackage")
      = [] := by
    rw [List.filter_eq_nil_iff]
    intro s hs
    obtain ⟨i, h1, _⟩ := hmemB s hs
    simp [h1]
  have hfUP : (createPackageStmts g).filter (fun s => s.functionName == "UpdatePackage")
      = [] := by
    rw [List.filter_eq_nil_iff]
    intro s hs
    obtain ⟨i, h1, _⟩ := hmemP s hs
    simp [h1]
  have hfU : (updatePackageStmts g).filter (fun s => s.functionName == "UpdatePackage")
      = updatePackageStmts g := by
    rw [List.filter_eq_self]
    intro s hs
    simp [(hmemU s hs).1]
  have hfUT : (transferPackageStmts g).filter (fun s => s.functionName == "UpdatePackage")
      = [] := by
    rw [List.filter_eq_nil_iff]
    intro s hs
    simp [(hmemT s hs).1]
  have hfTB : (createBatchStmts g).filter (fun s => s.functionName == "TransferPackage")
      = [] := by
    rw [List.filter_eq_nil_iff]
    intro s hs
    obtain ⟨i, h1, _⟩ := hmemB s hs
    simp [h1]
  have hfTP : (createPackageStmts g).filter (fun s => s.functionName == "TransferPackage")
      = [] := by
    rw [List.filter_eq_nil_iff]
    intro s hs
    obtain ⟨i, h1, _⟩ := hmemP s hs
    simp [h1]
  have hfTU : (updatePackageStmts g).filter (fun s => s.functionName == "TransferPackage")
      = [] := by
    rw [List.filter_eq_nil_iff]
    intro s hs
    simp [(hmemU s hs).1]
  have hfT : (transferPackageStmts g).filter (fun s => s.functionName == "TransferPackage")
      = transferPackageStmts g := by
    rw [List.filter_eq_self]
    intro s hs
    simp [(hmemT s hs).1]
  have hlenB : (createBatchStmts g).length = 5 := by simp [createBatchStmts]
  have hlenP : (createPackageStmts g).length = 10 := by simp [createPackageStmts]
  have hlenU : (updatePackageStmts g).length = 8 := by simp [updatePackageStmts]
  have hlenT : (transferPackageStmts g).length = 5 := by simp [transferPackageStmts]
  refine ⟨?_, ?_, ?_, ?_, ?_, ?_, ?_, ?_, ?_⟩
  · simp [sql_statements, hlenB, hlenP, hlenU, hlenT]
  · simp [sql_statements, List.filter_append, hfB, hfBP, hfBU, hfBT, hlenB]
  · simp [sql_statements, List.filter_append, hfPB, hfP, hfPU, hfPT, hlenP]
  · simp [sql_statements, List.filter_append, hfUB, hfUP, hfU, hfUT, hlenU]
  · simp [sql_statements, List.filter_append, hfTB, hfTP, hfTU, hfT, hlenT]
  · intro s hs
    simp only [sql_statements, List.mem_append] at hs
    rcases hs with ((h | h) | h) | h
    · obtain ⟨i, _, _, h2, h3, h4, h5⟩ := hmemB s h
      exact ⟨h2, h3, h4, h5⟩
    · obtain ⟨i, _, _, h2, h3, h4, h5⟩ := hmemP s h
      exact ⟨h2, h3, h4, h5⟩
    · obtain ⟨_, h2, h3, h4, h5⟩ := hmemU s h
      exact ⟨h2, h3, h4, h5⟩
    · obtain ⟨_, h2, h3, h4, h5⟩ := hmemT s h
      exact ⟨h2, h3, h4, h5⟩
  · simp [batchIds]
  · simp only [sql_statements, List.filter_append, hfB, hfBP, hfBU, hfBT,
      List.append_nil]
    simp [createBatchStmts, batchIds, List.map_map]
  · intro s hs hfn
    simp only [sql_statements, List.mem_append] at hs
    rcases hs with ((h | h) | h) | h
    · obtain ⟨i, h1, _⟩ := hmemB s h
      rw [h1] at hfn
      exact absurd hfn (by decide)
    · obtain ⟨i, _, h2, _⟩ := hmemP s h
      rw [h2]
      have : (["PKG_" ++ g.entHex (5 + i), pyChoice (batchIds g) (g.choiceDraw i),
          "Premium Tea Package", "500g"] : List String).getD 1 ""
          = pyChoice (batchIds g) (g.choiceDraw i) := rfl
      rw [this]
      apply pyChoice_mem
      simp [batchIds]
    · rw [(hmemU s h).1] at hfn
      exact absurd hfn (by decide)
    · rw [(hmemT s h).1] at hfn
      exact absurd hfn (by decide)

/-- C10 witness: a concrete oracle run; the first CreatePackage row
references a generated batch id. -/
theorem C10_witness :
    (sql_statements gConst).length = 28 ∧ cpFirst.args.getD 1 "" ∈ batchIds gConst :=
  ⟨(C10_seed_shape gConst).1,
   (C10_seed_shape gConst).2.2.2.2.2.2.2.2 cpFirst (by decide) rfl⟩
